import Mathlib

/-!
# Verification of the claude-mail priority-scoring pipeline

Shallow embedding of the email feature-extraction / priority-scoring core:

* `calculatePriority` embeds `PriorityScorer.calculatePriority`
  (src/src/core/features/PriorityScorer.ts, lines 74-255).
* `detectUrgency` embeds `ContentAnalyzer.detectUrgency`
  (src/unnamed/part_005, lines 747-794) together with a model of the
  regular-expression tests it performs.
* `calculateRelationshipScore` embeds
  `RelationshipScorer.calculateRelationshipScore`
  (src/src/core/features/PriorityScorer.ts, lines 790-833) as a function of
  the interaction statistics it reads from the database.

JavaScript numbers are modelled by `ℚ` (and by `ℝ` where the source uses
`Math.exp`).  Nullable numeric fields become `Option ℚ` / `Option Int`;
JavaScript truthiness of a number (`0` and `null` are falsy) is modelled by
`tru` / `otru`.  `Date.now()` becomes an explicit `now : Int` parameter
(seconds, already floored as in the source).
-/

set_option autoImplicit false

/-- JavaScript truthiness of a number: falsy exactly on `0`
(`NaN` has no counterpart in `ℚ`). -/
def tru (x : ℚ) : Bool := x != 0

/-- JavaScript truthiness of a nullable number: falsy on `null` and `0`. -/
def otru (x : Option ℚ) : Bool :=
  match x with
  | none => false
  | some v => v != 0

/-- The `content_intent` values distinguished by the scorer
(`'request' | 'inform' | 'schedule' | 'confirm'` in FeatureExtractor). -/
inductive ContentIntent where
  | confirm
  | request
  | schedule
  | inform
deriving DecidableEq, Repr

/-- The five priority categories of `PriorityScore.category`
(src/src/core/features/PriorityScorer.ts line 21). -/
inductive Category where
  | urgent
  | important
  | normal
  | low
  | spam
deriving DecidableEq, Repr

/-- `MessageFeatures` (FeatureExtractor): the canonical per-message feature
record, with the exact field list used by the test helper
`createBaselineFeatures` (src/unnamed/part_005, lines 22-55).  Numeric
fields are `ℚ`, nullable numeric fields `Option ℚ`. -/
structure MessageFeatures where
  email_id : String
  is_newsletter : ℚ
  is_auto_generated : ℚ
  has_list_unsubscribe : ℚ
  has_list_id : ℚ
  has_auto_submitted : ℚ
  has_calendar : ℚ
  calendar_start_epoch : Option ℚ
  otp_detected : ℚ
  otp_age_minutes : Option ℚ
  relationship_score : ℚ
  is_vip_sender : ℚ
  reply_count_from_user : ℚ
  reply_count_to_user : ℚ
  last_interaction_epoch : Option ℚ
  thread_you_owe : ℚ
  thread_recency_minutes : Option ℚ
  thread_length : ℚ
  explicit_ask : ℚ
  deadline_epoch : Option ℚ
  time_to_deadline_min : Option ℚ
  content_intent : Option ContentIntent
  reply_need_prob : ℚ
  reply_latency_bucket : ℚ

/-- `PriorityScore` (src/src/core/features/PriorityScorer.ts lines 18-25).
`feature_weights` is an association list in insertion order, modelling the
JavaScript object `featureWeights`. -/
structure PriorityScore where
  email_id : String
  score : Int
  category : Category
  confidence : ℚ
  reasoning : List String
  feature_weights : List (String × ℚ)
deriving DecidableEq, Repr

/-- `Math.max(0, Math.min(100, score))` (PriorityScorer.ts line 228). -/
def clamp100 (q : ℚ) : ℚ := max 0 (min 100 q)

/-- `Math.max(0, Math.min(1, confidence))` (PriorityScorer.ts line 245). -/
def clamp01 (q : ℚ) : ℚ := max 0 (min 1 q)

/-- `Math.round` on the clamped score (PriorityScorer.ts line 249);
for non-negative arguments JavaScript rounds half up: `⌊q + 1/2⌋`. -/
def jsRound (q : ℚ) : Int := ⌊q + 1/2⌋

/-- Decimal formatting used for the reasoning strings: model of
`Number.prototype.toFixed(2)` for the non-negative scores it is applied to. -/
def fixed2 (q : ℚ) : String :=
  let n : Int := ⌊q * 100 + 1/2⌋
  let ip : Int := n / 100
  let fp : Int := n % 100
  toString ip ++ "." ++ (if fp < 10 then "0" ++ toString fp else toString fp)

/-- Model of `Number.prototype.toFixed(0)` for non-negative arguments. -/
def fixed0 (q : ℚ) : String := toString (⌊q + 1/2⌋ : Int)

/-- The urgent-deadline test (PriorityScorer.ts lines 139 and 145):
`features.deadline_epoch` truthy, `features.time_to_deadline_min !== null`
and `< 1440`. -/
def deadlineUrgentB (f : MessageFeatures) : Bool :=
  otru f.deadline_epoch &&
    (match f.time_to_deadline_min with
     | some t => decide (t < 1440)
     | none => false)

/-- The security-alert override test (PriorityScorer.ts lines 214-216):
deadline truthy, minutes-to-deadline non-null and `< 360`, explicit ask. -/
def securityB (f : MessageFeatures) : Bool :=
  otru f.deadline_epoch &&
    (match f.time_to_deadline_min with
     | some t => decide (t < 360)
     | none => false) &&
    tru f.explicit_ask

/-- `hoursToEvent > 0 && hoursToEvent < 24` where
`hoursToEvent = (calendar_start_epoch - now) / 3600`
(PriorityScorer.ts lines 199-203). -/
def calWindow (c : ℚ) (now : Int) : Bool :=
  decide ((0 : ℚ) < (c - now) / 3600) && decide ((c - now) / 3600 < 24)

/-- The calendar-override test (PriorityScorer.ts lines 198-203):
`features.has_calendar && features.calendar_start_epoch` truthy and the
event starts strictly within the next 24 hours. -/
def calActive (f : MessageFeatures) (now : Int) : Bool :=
  tru f.has_calendar &&
    (match f.calendar_start_epoch with
     | some c => (c != 0) && calWindow c now
     | none => false)

/-- `Math.floor(hoursToEvent)` for the calendar reasoning string
(PriorityScorer.ts line 206). -/
def calHours (f : MessageFeatures) (now : Int) : Int :=
  match f.calendar_start_epoch with
  | some c => ⌊(c - now) / 3600⌋
  | none => 0

/-- Phase 5 of `PriorityScorer.calculatePriority`
(PriorityScorer.ts lines 223-254): clamp the score to `[0,100]`, categorize
by the fixed thresholds 90/70/50/30, clamp the confidence to `[0,1]`, and
round the score to an integer. -/
def finalize (id : String) (score conf : ℚ) (reasoning : List String)
    (fw : List (String × ℚ)) : PriorityScore :=
  let scoreC := clamp100 score
  { email_id := id
    score := jsRound scoreC
    category :=
      if 90 ≤ scoreC then Category.urgent
      else if 70 ≤ scoreC then Category.important
      else if 50 ≤ scoreC then Category.normal
      else if 30 ≤ scoreC then Category.low
      else Category.spam
    confidence := clamp01 conf
    reasoning := reasoning
    feature_weights := fw }

/-- `PriorityScorer.calculatePriority`
(src/src/core/features/PriorityScorer.ts lines 74-255), with `Date.now()`
(consulted only by the calendar override, line 199) passed explicitly as
`now` (epoch seconds).  The sequential `score += …` / `push` statements of
the source are rendered as one accumulation per phase; the reasoning list
and the feature-weight association list are concatenated in the exact
order the source pushes them. -/
def calculatePriority (f : MessageFeatures) (now : Int) : PriorityScore :=
  -- Phase 1: negative signals (lines 84-104)
  let score1 : ℚ := if tru f.is_newsletter then 50 - 30 else 50
  let score2 : ℚ :=
    if tru f.is_auto_generated && !tru f.has_calendar then score1 - 20 else score1
  let score3 : ℚ := if tru f.otp_detected then score2 - 35 else score2
  let conf1 : ℚ := if tru f.otp_detected then min (4/5) (3/5) else 4/5
  -- Phase 2: positive signals (lines 110-173)
  let score4 : ℚ :=
    if 0 < f.relationship_score then score3 + f.relationship_score * 30 else score3
  let score5 : ℚ := if tru f.is_vip_sender then score4 + 15 else score4
  let score6 : ℚ := if tru f.explicit_ask then score5 + 20 else score5
  let score7 : ℚ := if otru f.deadline_epoch then score6 + 15 else score6
  let score8 : ℚ := if deadlineUrgentB f then score7 + 25 else score7
  let conf2 : ℚ := if deadlineUrgentB f then min (conf1 + 1/10) 1 else conf1
  let score9 : ℚ := if tru f.thread_you_owe then score8 + 20 else score8
  let score10 : ℚ :=
    if 1/2 < f.reply_need_prob then score9 + f.reply_need_prob * 25 else score9
  -- Phase 3: intent modifiers (lines 179-191)
  let score11 : ℚ :=
    match f.content_intent with
    | some ContentIntent.confirm => score10 + 10
    | some ContentIntent.request => score10 + 5
    | some ContentIntent.inform => score10 - 5
    | _ => score10
  -- Phase 4: special cases and overrides (lines 198-221)
  let score12 : ℚ := if calActive f now then max score11 70 else score11
  let conf3 : ℚ := if calActive f now then min (conf2 + 3/20) 1 else conf2
  let score13 : ℚ := if securityB f then max score12 85 else score12
  let conf4 : ℚ := if securityB f then 7/10 else conf3
  -- Reasoning strings, in push order (lines 86, 93, 99, 115-119, 127, 134,
  -- 141, 148, 163, 171, 181, 185, 189, 206, 219)
  let reasoning : List String :=
    (if tru f.is_newsletter then ["Newsletter detected (RFC 2369/2919)"] else []) ++
    (if tru f.is_auto_generated && !tru f.has_calendar then
      ["Auto-generated email (RFC 3834)"] else []) ++
    (if tru f.otp_detected then
      ["OTP/2FA code detected (low interaction priority)"] else []) ++
    (if 0 < f.relationship_score then
      (if 7/10 < f.relationship_score then
        ["Strong relationship with sender (score: " ++
          fixed2 f.relationship_score ++ ")"]
       else if 2/5 < f.relationship_score then
        ["Moderate relationship with sender (score: " ++
          fixed2 f.relationship_score ++ ")"]
       else [])
     else []) ++
    (if tru f.is_vip_sender then ["VIP sender (manually flagged)"] else []) ++
    (if tru f.explicit_ask then ["Contains explicit question or request"] else []) ++
    (if otru f.deadline_epoch then
      ["Email has deadline"] ++
        (match f.time_to_deadline_min with
         | some t =>
            if t < 1440 then
              ["Deadline in " ++ toString (⌊t / 60⌋ : Int) ++ "h (urgent)"]
            else []
         | none => [])
     else []) ++
    (if tru f.thread_you_owe then
      ["Conversation continuation (you owe a reply)"] else []) ++
    (if 1/2 < f.reply_need_prob then
      ["High reply probability (" ++ fixed0 (f.reply_need_prob * 100) ++ "%)"]
     else []) ++
    (match f.content_intent with
     | some ContentIntent.confirm => ["Requires confirmation"]
     | some ContentIntent.request => ["Action request"]
     | some ContentIntent.inform => ["Informational (lower priority)"]
     | _ => []) ++
    (if calActive f now then
      ["Calendar invite: event in " ++ toString (calHours f now) ++ "h"] else []) ++
    (if securityB f then
      ["Potential security alert (urgent + short deadline)"] else [])
  -- Feature weights, in insertion order (lines 87, 94, 100, 121, 128, 135,
  -- 142, 149, 164, 172, 182, 186, 190)
  let fw : List (String × ℚ) :=
    (if tru f.is_newsletter then [("is_newsletter", (-30 : ℚ))] else []) ++
    (if tru f.is_auto_generated && !tru f.has_calendar then
      [("is_auto_generated", (-20 : ℚ))] else []) ++
    (if tru f.otp_detected then [("otp_detected", (-35 : ℚ))] else []) ++
    (if 0 < f.relationship_score then
      [("relationship_score", f.relationship_score * 30)] else []) ++
    (if tru f.is_vip_sender then [("is_vip_sender", (15 : ℚ))] else []) ++
    (if tru f.explicit_ask then [("explicit_ask", (20 : ℚ))] else []) ++
    (if otru f.deadline_epoch then [("deadline_epoch", (15 : ℚ))] else []) ++
    (if deadlineUrgentB f then [("time_to_deadline_urgent", (25 : ℚ))] else []) ++
    (if tru f.thread_you_owe then [("thread_you_owe", (20 : ℚ))] else []) ++
    (if 1/2 < f.reply_need_prob then
      [("reply_need_prob", f.reply_need_prob * 25)] else []) ++
    (match f.content_intent with
     | some ContentIntent.confirm => [("intent_confirm", (10 : ℚ))]
     | some ContentIntent.request => [("intent_request", (5 : ℚ))]
     | some ContentIntent.inform => [("intent_inform", (-5 : ℚ))]
     | _ => [])
  -- Phase 5: finalize (lines 223-254)
  finalize f.email_id score13 conf4 reasoning fw

/-- The baseline feature record of the test helper
`createBaselineFeatures` (src/unnamed/part_005 lines 22-55): every field at
its "no signal" default. -/
def baselineFeatures : MessageFeatures where
  email_id := "test-001"
  is_newsletter := 0
  is_auto_generated := 0
  has_list_unsubscribe := 0
  has_list_id := 0
  has_auto_submitted := 0
  has_calendar := 0
  calendar_start_epoch := none
  otp_detected := 0
  otp_age_minutes := none
  relationship_score := 0
  is_vip_sender := 0
  reply_count_from_user := 0
  reply_count_to_user := 0
  last_interaction_epoch := none
  thread_you_owe := 0
  thread_recency_minutes := none
  thread_length := 1
  explicit_ask := 0
  deadline_epoch := none
  time_to_deadline_min := none
  content_intent := none
  reply_need_prob := 0
  reply_latency_bucket := 3

/-!
## ContentAnalyzer urgency detection

Model of `ContentAnalyzer.detectUrgency` (src/unnamed/part_005, lines
747-794) and of the regular-expression tests it performs over the
`URGENCY_SIGNALS` pattern table (lines 556-575).  Every pattern in that
table is an alternation of literal words/phrases wrapped in `\b…\b`
(case-insensitive), plus the two special patterns `!!!+` and the
case-sensitive `\bNOW\b`; the all-caps bonus uses `\b[A-Z]{3,}\b` on the
subject.  A `\b` matches a transition between word characters
(`[A-Za-z0-9_]`) and non-word characters or the ends of the string.
-/

/-- JavaScript `\w` word character: `[A-Za-z0-9_]`. -/
def isWordChar (c : Char) : Bool := c.isAlphanum || c == '_'

/-- Does the literal `w` occur at the head of `t` followed by a word
boundary (end of string or a non-word character)? -/
def boundaryMatchAt (w t : List Char) : Bool :=
  w.isPrefixOf t &&
    (match t.drop w.length with
     | [] => true
     | c :: _ => !isWordChar c)

/-- Scan `t` for an occurrence of the literal `w` preceded by a word
boundary (`atB` records whether the current position follows a non-word
character or the start of the string) and followed by a word boundary:
the test of `\bw\b` against `t`. -/
def scanWord (w : List Char) (t : List Char) (atB : Bool) : Bool :=
  match t with
  | [] => false
  | c :: rest => (atB && boundaryMatchAt w (c :: rest)) || scanWord w rest (!isWordChar c)

/-- Case-sensitive test of `\bw\b` against `s` (for `/\bNOW\b/`). -/
def hasWordCS (w s : String) : Bool := scanWord w.toList s.toList true

/-- Case-insensitive test of `\bw\b` against `s` (for the `/i` patterns):
both the literal and the text are lower-cased; word-character status is
unchanged by lower-casing. -/
def hasWordCI (w s : String) : Bool :=
  scanWord (w.toList.map Char.toLower) (s.toList.map Char.toLower) true

/-- Test of an alternation `\b(w₁|w₂|…)\b/i`: some alternative occurs with
word boundaries. -/
def anyWordCI (ws : List String) (s : String) : Bool := ws.any (fun w => hasWordCI w s)

/-- Plain substring containment (for `/!!!+/`, which matches iff the text
contains `!!!`). -/
def containsSeq (w : List Char) (t : List Char) : Bool :=
  w.isPrefixOf t ||
    (match t with
     | [] => false
     | _ :: rest => containsSeq w rest)

/-- At the current position: a run of three or more uppercase letters
followed by a word boundary.  Only the maximal uppercase run can be
followed by a boundary, since uppercase letters are word characters. -/
def capsHere (t : List Char) : Bool :=
  let run := t.takeWhile Char.isUpper
  decide (3 ≤ run.length) &&
    (match t.drop run.length with
     | [] => true
     | c :: _ => !isWordChar c)

/-- Scan for `\b[A-Z]{3,}\b`: a boundary, then three or more uppercase
letters, then a boundary. -/
def capsScan (t : List Char) (atB : Bool) : Bool :=
  match t with
  | [] => false
  | c :: rest => (atB && capsHere (c :: rest)) || capsScan rest (!isWordChar c)

/-- Test of `/\b[A-Z]{3,}\b/` against the subject
(src/unnamed/part_005 line 780): the subject contains a word of three or
more consecutive capital letters. -/
def hasAllCapsWord (s : String) : Bool := capsScan s.toList true

/-- `URGENCY_SIGNALS.CRITICAL` (src/unnamed/part_005 lines 557-563), one
Boolean test per regular expression. -/
def criticalSignals : List (String → Bool) :=
  [ anyWordCI ["urgent", "emergency", "critical", "immediate", "immediately",
      "asap", "right away"],
    anyWordCI ["time-sensitive", "time sensitive", "time critical", "priority"],
    anyWordCI ["action required", "response required", "approval required"],
    fun t => containsSeq "!!!".toList t.toList,
    hasWordCS "NOW" ]

/-- `URGENCY_SIGNALS.HIGH` (src/unnamed/part_005 lines 564-569). -/
def highSignals : List (String → Bool) :=
  [ anyWordCI ["soon", "quickly", "prompt", "promptly", "expedite"],
    anyWordCI ["high priority", "important"],
    anyWordCI ["need by", "need before", "needed by", "needed before"],
    anyWordCI ["deadline", "due date"] ]

/-- `URGENCY_SIGNALS.MEDIUM` (src/unnamed/part_005 lines 570-574). -/
def mediumSignals : List (String → Bool) :=
  [ anyWordCI ["timely", "at your earliest convenience"],
    anyWordCI ["followup", "follow-up", "follow up", "reminder"],
    anyWordCI ["pending", "waiting for"] ]

/-- The ``${subject}\n${bodyText}`` concatenation the detector tests
against (src/unnamed/part_005 line 754). -/
def fullTextOf (subject body : String) : String := subject ++ "\n" ++ body

/-- `ContentAnalyzer.detectUrgency` (src/unnamed/part_005 lines 747-794):
one loop per tier adding 5/3/1 per matching pattern, +2 if the subject has
an all-caps word of three or more letters, capped at 10.  Only the
`urgency_level` field of the source's result is modelled (the
`urgency_signals` string list records the same matches). -/
def detectUrgency (subject body : String) : Nat :=
  let fullText := fullTextOf subject body
  let score := criticalSignals.foldl (fun acc p => if p fullText then acc + 5 else acc) 0
  let score := highSignals.foldl (fun acc p => if p fullText then acc + 3 else acc) score
  let score := mediumSignals.foldl (fun acc p => if p fullText then acc + 1 else acc) score
  let score := if hasAllCapsWord subject then score + 2 else score
  min 10 score

/-- Modelled from the spec: "capitalized word" for the claimed bonus
condition — a word token beginning with a capital letter. -/
def capitalizedTok (tk : List Char) : Bool :=
  match tk with
  | [] => false
  | c :: _ => c.isUpper

/-- Split into maximal word-character runs (word tokens), dropping the
empty runs between consecutive separators. -/
def wordTokensAux : List Char → List Char → List (List Char)
  | [], cur => [cur.reverse]
  | c :: rest, cur =>
      if isWordChar c then wordTokensAux rest (c :: cur)
      else cur.reverse :: wordTokensAux rest []

/-- The word tokens of a string, in order, empties removed. -/
def wordTokens (s : String) : List (List Char) :=
  (wordTokensAux s.toList []).filter (fun tk => tk.length != 0)

/-- Three consecutive entries of the list all satisfy `capitalizedTok`. -/
def threeConsecCapsIn : List (List Char) → Bool
  | t1 :: t2 :: t3 :: rest =>
      (capitalizedTok t1 && capitalizedTok t2 && capitalizedTok t3) ||
        threeConsecCapsIn (t2 :: t3 :: rest)
  | _ => false

/-- Modelled from the spec: "three or more consecutive capitalized words
in the subject". -/
def threeConsecCapWords (s : String) : Bool := threeConsecCapsIn (wordTokens s)

/-- Modelled from the spec's words (the claimed urgency formula, for
comparison with `detectUrgency`): +5 for each matched critical term
("urgent", "asap", "immediate", "emergency", repeated exclamation marks),
+3 for each matched high term ("high priority", "deadline", "expedite"),
+1 for each matched medium term ("follow-up", "reminder", "pending"),
+2 when the subject contains three or more consecutive capitalized words,
then clamp to 10. -/
def specUrgency (subject body : String) : Nat :=
  let fullText := fullTextOf subject body
  let criticalTerms : List (String → Bool) :=
    [ hasWordCI "urgent", hasWordCI "asap", hasWordCI "immediate",
      hasWordCI "emergency", fun t => containsSeq "!!!".toList t.toList ]
  let highTerms : List (String → Bool) :=
    [ hasWordCI "high priority", hasWordCI "deadline", hasWordCI "expedite" ]
  let mediumTerms : List (String → Bool) :=
    [ hasWordCI "follow-up", hasWordCI "reminder", hasWordCI "pending" ]
  min 10
    (5 * criticalTerms.countP (fun p => p fullText) +
     3 * highTerms.countP (fun p => p fullText) +
     mediumTerms.countP (fun p => p fullText) +
     (if threeConsecCapWords subject then 2 else 0))

/-!
## RelationshipScorer

Model of `RelationshipScorer.calculateRelationshipScore`
(src/src/core/features/PriorityScorer.ts lines 790-833) and its component
scorers (lines 994-1055).  The interaction statistics the source reads
from the database (`analyzeEmailHistory`) are passed in as an
`EmailHistoryStats` value; `Date.now()` (consulted by `scoreRecency`) is
the explicit `now` parameter.  `Math.exp` forces the real numbers here. -/

/-- `EmailHistoryStats` (PriorityScorer.ts lines 730-740). -/
structure EmailHistoryStats where
  emails_received : Nat
  emails_sent_to : Nat
  user_replies_count : Nat
  sender_replies_count : Nat
  two_way_exchanges : Nat
  first_contact_epoch : Option Int
  last_contact_epoch : Option Int
  avg_reply_latency_minutes : Option ℝ
  total_interaction_days : Int

/-- `RelationshipScore` (PriorityScorer.ts lines 742-754). -/
structure RelationshipScore where
  sender_email : String
  score : ℝ
  is_vip : Nat
  reply_frequency : ℝ
  two_way_exchanges : ℝ
  recency : ℝ
  email_volume : ℝ
  manual_vip : ℝ
  stats : EmailHistoryStats

/-- `scoreReplyFrequency` (PriorityScorer.ts lines 994-1004): peaks at a
50% user-reply ratio, decaying linearly; neutral 0.5 when nothing was
received. -/
noncomputable def scoreReplyFrequency (stats : EmailHistoryStats) : ℝ :=
  if stats.emails_received = 0 then 1/2
  else
    let replyRatio : ℝ := (stats.user_replies_count : ℝ) / (stats.emails_received : ℝ)
    max 0 (1 - |replyRatio - 1/2| * 2)

/-- `scoreTwoWayExchanges` (PriorityScorer.ts lines 1010-1019). -/
noncomputable def scoreTwoWayExchanges (stats : EmailHistoryStats) : ℝ :=
  let totalEmails := stats.emails_received + stats.emails_sent_to
  if totalEmails = 0 then 0
  else min 1 ((stats.two_way_exchanges : ℝ) / (totalEmails : ℝ) * 2)

/-- `scoreRecency` (PriorityScorer.ts lines 1025-1036): exponential decay
over 90 days since last contact; `!stats.last_contact_epoch` is JavaScript
truthiness, so a `null` or `0` epoch scores 0. -/
noncomputable def scoreRecency (stats : EmailHistoryStats) (now : Int) : ℝ :=
  match stats.last_contact_epoch with
  | none => 0
  | some l =>
      if l = 0 then 0
      else
        let daysSinceContact : ℝ := ((now - l : Int) : ℝ) / (24 * 60 * 60)
        max 0 (min 1 (Real.exp (-(daysSinceContact / 90))))

/-- `scoreEmailVolume` (PriorityScorer.ts lines 1042-1055): linear ramp up
to 5 received, flat 1.0 up to 50, then a penalty scaled by the spam
threshold 100. -/
noncomputable def scoreEmailVolume (stats : EmailHistoryStats) : ℝ :=
  if stats.emails_received < 5 then (stats.emails_received : ℝ) / 5
  else if stats.emails_received ≤ 50 then 1
  else max 0 (1 - ((stats.emails_received : ℝ) - 50) / 100)

/-- `RelationshipScorer.calculateRelationshipScore`
(PriorityScorer.ts lines 790-833): weighted sum of the five components
(weights 0.35 / 0.25 / 0.20 / 0.10 / 0.10), clamped to `[0,1]`, except
that a sender with zero interactions in either direction gets the flat
neutral baseline 0.5. -/
noncomputable def calculateRelationshipScore (senderEmail : String)
    (stats : EmailHistoryStats) (isManualVIP : Bool) (now : Int) :
    RelationshipScore :=
  let replyFrequencyScore := scoreReplyFrequency stats
  let twoWayExchangeScore := scoreTwoWayExchanges stats
  let recencyScore := scoreRecency stats now
  let emailVolumeScore := scoreEmailVolume stats
  let manualVIPScore : ℝ := if isManualVIP then 1 else 0
  let compositeScore :=
    replyFrequencyScore * (35/100) +
    twoWayExchangeScore * (25/100) +
    recencyScore * (20/100) +
    emailVolumeScore * (10/100) +
    manualVIPScore * (10/100)
  let isNewSender := stats.emails_received = 0 ∧ stats.emails_sent_to = 0
  let finalScore : ℝ :=
    if isNewSender then 1/2 else max 0 (min 1 compositeScore)
  { sender_email := senderEmail
    score := finalScore
    is_vip := if isManualVIP then 1 else 0
    reply_frequency := replyFrequencyScore
    two_way_exchanges := twoWayExchangeScore
    recency := recencyScore
    email_volume := emailVolumeScore
    manual_vip := manualVIPScore
    stats := stats }

/-!
## Auxiliary definitions for the statements

Concrete feature records used by the theorems, and the per-category score
bounds that the rounded score provably satisfies. -/

/-- Lower bound of the rounded score for each category (the category's own
threshold). -/
def catLoBound : Category → Int
  | Category.urgent => 90
  | Category.important => 70
  | Category.normal => 50
  | Category.low => 30
  | Category.spam => 0

/-- Upper bound of the rounded score for each category: the next
threshold up.  The rounded score can land exactly on the upper threshold
because the category is chosen from the score before rounding. -/
def catHiBound : Category → Int
  | Category.urgent => 100
  | Category.important => 90
  | Category.normal => 70
  | Category.low => 50
  | Category.spam => 30

/-- Baseline plus the newsletter flag (spec boundary scenario 2). -/
def newsletterFeatures : MessageFeatures :=
  { baselineFeatures with is_newsletter := 1 }

/-- Baseline plus the one-time-code flag (spec boundary scenario 6). -/
def otpFeatures : MessageFeatures :=
  { baselineFeatures with otp_detected := 1 }

/-- Baseline with relationship score 0.82 and the VIP flag: the unrounded
score is 50 + 24.6 + 15 = 89.6, which rounds to 90 but categorizes as
`important`. -/
def relVipFeatures : MessageFeatures :=
  { baselineFeatures with relationship_score := 41/50, is_vip_sender := 1 }

/-- Baseline with a calendar invite whose event starts at epoch 3600:
the calendar override fires iff `Date.now()` lies in the preceding
24 hours. -/
def calendarFeatures : MessageFeatures :=
  { baselineFeatures with has_calendar := 1, calendar_start_epoch := some 3600 }

/-- Baseline with a *zero* (hence JavaScript-falsy) deadline epoch and
30 minutes to deadline. -/
def zeroDeadlineFeatures : MessageFeatures :=
  { baselineFeatures with deadline_epoch := some 0, time_to_deadline_min := some 30 }

/-- `zeroDeadlineFeatures` plus the explicit-ask flag. -/
def zeroDeadlineAskFeatures : MessageFeatures :=
  { baselineFeatures with
      deadline_epoch := some 0, time_to_deadline_min := some 30, explicit_ask := 1 }

/-- Baseline with a deadline 30 minutes away (spec boundary scenario 4). -/
def urgentDeadlineFeatures : MessageFeatures :=
  { baselineFeatures with deadline_epoch := some 1800, time_to_deadline_min := some 30 }

/-- `urgentDeadlineFeatures` plus the explicit-ask flag: triggers the
security-alert override. -/
def securityAskFeatures : MessageFeatures :=
  { baselineFeatures with
      deadline_epoch := some 1800, time_to_deadline_min := some 30, explicit_ask := 1 }

/-- Interaction statistics of a brand-new sender: no history at all. -/
def emptyStats : EmailHistoryStats :=
  { emails_received := 0
    emails_sent_to := 0
    user_replies_count := 0
    sender_replies_count := 0
    two_way_exchanges := 0
    first_contact_epoch := none
    last_contact_epoch := none
    avg_reply_latency_minutes := none
    total_interaction_days := 0 }

/-!
## Helper lemmas -/

theorem jsRound_ge {a : Int} {q : ℚ} (h : (a : ℚ) ≤ q) : a ≤ jsRound q := by
  unfold jsRound
  rw [Int.le_floor]
  linarith

theorem jsRound_le {b : Int} {q : ℚ} (h : q < (b : ℚ) + 1/2) : jsRound q ≤ b := by
  unfold jsRound
  have : (⌊q + 1/2⌋ : Int) < b + 1 := by
    rw [Int.floor_lt]
    push_cast
    linarith
  omega

theorem clamp100_nonneg (q : ℚ) : 0 ≤ clamp100 q := le_max_left 0 _

theorem clamp100_le (q : ℚ) : clamp100 q ≤ 100 := by
  unfold clamp100
  rcases le_or_lt q 100 with h | h
  · exact max_le (by norm_num) (min_le_left _ _)
  · exact max_le (by norm_num) (min_le_left _ _)

theorem clamp01_nonneg (q : ℚ) : 0 ≤ clamp01 q := le_max_left 0 _

theorem clamp01_le (q : ℚ) : clamp01 q ≤ 1 :=
  max_le (by norm_num) (min_le_left _ _)

theorem clamp100_ge_of_le {a q : ℚ} (ha : a ≤ 100) (h : a ≤ q) : a ≤ clamp100 q :=
  le_trans (le_min ha h) (le_max_right 0 _)

theorem finalize_score_nonneg (id : String) (s c : ℚ) (r : List String)
    (w : List (String × ℚ)) : 0 ≤ (finalize id s c r w).score := by
  unfold finalize
  exact jsRound_ge (by push_cast; linarith [clamp100_nonneg s])

theorem finalize_score_le (id : String) (s c : ℚ) (r : List String)
    (w : List (String × ℚ)) : (finalize id s c r w).score ≤ 100 := by
  unfold finalize
  exact jsRound_le (by push_cast; linarith [clamp100_le s])

theorem finalize_confidence_mem (id : String) (s c : ℚ) (r : List String)
    (w : List (String × ℚ)) :
    0 ≤ (finalize id s c r w).confidence ∧ (finalize id s c r w).confidence ≤ 1 := by
  unfold finalize
  exact ⟨clamp01_nonneg c, clamp01_le c⟩

theorem finalize_cat_bounds (id : String) (s c : ℚ) (r : List String)
    (w : List (String × ℚ)) :
    catLoBound (finalize id s c r w).category ≤ (finalize id s c r w).score ∧
      (finalize id s c r w).score ≤ catHiBound (finalize id s c r w).category := by
  unfold finalize
  have h0 : (0 : ℚ) ≤ clamp100 s := clamp100_nonneg s
  have h100 : clamp100 s ≤ 100 := clamp100_le s
  dsimp only
  split_ifs with h1 h2 h3 h4 <;>
    simp only [catLoBound, catHiBound] <;>
    constructor <;>
    first
      | exact jsRound_ge (by push_cast; linarith)
      | exact jsRound_le (by push_cast; linarith)

/-- `calculatePriority` always ends in phase 5. -/
theorem calculatePriority_shape (f : MessageFeatures) (now : Int) :
    ∃ s c r w, calculatePriority f now = finalize f.email_id s c r w :=
  ⟨_, _, _, _, rfl⟩

theorem otru_some (v : ℚ) : otru (some v) = (v != 0) := rfl

theorem otru_some_true {v : ℚ} (h : v ≠ 0) : otru (some v) = true := by
  simp [otru, h]

/-- If the calendar flag or the calendar start epoch is falsy, the
calendar override never fires, for any evaluation time. -/
theorem calActive_false_of {f : MessageFeatures}
    (h : (tru f.has_calendar && otru f.calendar_start_epoch) = false) :
    ∀ now : Int, calActive f now = false := by
  intro now
  unfold calActive
  cases hc : tru f.has_calendar with
  | false => simp
  | true =>
      rw [hc] at h
      simp only [Bool.true_and] at h ⊢
      cases hcse : f.calendar_start_epoch with
      | none => simp
      | some c =>
          rw [hcse] at h
          rw [otru_some] at h
          simp [h]

/-- The evaluation time reaches `calculatePriority` only through the
calendar override; if that override is dead the result is
time-independent. -/
theorem calculatePriority_time_indep (f : MessageFeatures)
    (h : (tru f.has_calendar && otru f.calendar_start_epoch) = false)
    (t1 t2 : Int) : calculatePriority f t1 = calculatePriority f t2 := by
  unfold calculatePriority
  rw [calActive_false_of h t1, calActive_false_of h t2]
  simp only [Bool.false_eq_true, if_false]

/-- One tier loop of `detectUrgency`: folding `+k` per matching pattern
adds `k` times the number of matching patterns. -/
theorem foldl_signal_add (ps : List (String → Bool)) (t : String) (k a : Nat) :
    ps.foldl (fun acc p => if p t then acc + k else acc) a
      = a + k * ps.countP (fun p => p t) := by
  induction ps generalizing a with
  | nil => simp
  | cons p ps ih =>
      simp only [List.foldl_cons, List.countP_cons]
      cases hp : p t with
      | false =>
          simp only [Bool.false_eq_true, if_false, ih, hp]
          ring
      | true =>
          simp only [if_true, ih, hp]
          ring

theorem le_jsRound_clamp100_max85 (s : ℚ) :
    (85 : Int) ≤ jsRound (clamp100 (max s 85)) := by
  apply jsRound_ge
  have h1 : (85 : ℚ) ≤ max s 85 := le_max_right s 85
  have h2 := clamp100_ge_of_le (a := 85) (q := max s 85) (by norm_num) h1
  push_cast
  linarith

theorem deadlineUrgentB_true {f : MessageFeatures} {d t : ℚ}
    (hd : f.deadline_epoch = some d) (hd0 : d ≠ 0)
    (ht : f.time_to_deadline_min = some t) (h14 : t < 1440) :
    deadlineUrgentB f = true := by
  simp [deadlineUrgentB, hd, ht, otru, hd0, h14]

theorem securityB_true {f : MessageFeatures} {d t : ℚ}
    (hd : f.deadline_epoch = some d) (hd0 : d ≠ 0)
    (ht : f.time_to_deadline_min = some t) (h36 : t < 360)
    (hask : tru f.explicit_ask = true) : securityB f = true := by
  simp [securityB, hd, ht, otru, hd0, h36, hask]

theorem deadlineUrgentB_false_of {f : MessageFeatures}
    (h : ¬(f.deadline_epoch ≠ none ∧
            ∃ t, f.time_to_deadline_min = some t ∧ t < 1440)) :
    deadlineUrgentB f = false := by
  rcases hde : f.deadline_epoch with _ | d
  · simp [deadlineUrgentB, hde, otru]
  · rcases htm : f.time_to_deadline_min with _ | t
    · simp [deadlineUrgentB, htm]
    · rcases lt_or_le t 1440 with h14 | h14
      · exact absurd ⟨by simp [hde], t, htm, h14⟩ h
      · simp [deadlineUrgentB, htm, not_lt.mpr h14]

theorem securityB_false_of {f : MessageFeatures}
    (h : ¬(f.deadline_epoch ≠ none ∧
            (∃ t, f.time_to_deadline_min = some t ∧ t < 360) ∧
            tru f.explicit_ask = true)) :
    securityB f = false := by
  rcases hde : f.deadline_epoch with _ | d
  · simp [securityB, hde, otru]
  · rcases htm : f.time_to_deadline_min with _ | t
    · simp [securityB, htm]
    · rcases lt_or_le t 360 with h36 | h36
      · cases hask : tru f.explicit_ask with
        | false => simp [securityB, hask]
        | true => exact absurd ⟨by simp [hde], ⟨t, htm, h36⟩, hask⟩ h
      · simp [securityB, htm, not_lt.mpr h36]

theorem calActive_false_of_window {f : MessageFeatures} {now : Int}
    (h : ¬ ∃ c, f.calendar_start_epoch = some c ∧
          0 < c - (now : ℚ) ∧ c - (now : ℚ) < 86400) :
    calActive f now = false := by
  rcases hce : f.calendar_start_epoch with _ | c
  · simp [calActive, hce]
  · have hw : calWindow c now = false := by
      cases hcw : calWindow c now with
      | false => rfl
      | true =>
          exfalso
          have h1 : (0 : ℚ) < (c - (now : ℚ)) / 3600 ∧ (c - (now : ℚ)) / 3600 < 24 := by
            simpa [calWindow] using hcw
          refine h ⟨c, hce, ?_, ?_⟩
          · have := (lt_div_iff₀ (by norm_num : (0:ℚ) < 3600)).mp h1.1
            linarith
          · have := (div_lt_iff₀ (by norm_num : (0:ℚ) < 3600)).mp h1.2
            linarith
    simp [calActive, hce, hw]

/-!
## Claim theorems -/

/-- C1: for every `MessageFeatures` input (and every evaluation time), the
`PriorityScore` returned by `calculatePriority` has an integer `score`
with `0 ≤ score ≤ 100` and a `confidence` with `0 ≤ confidence ≤ 1`. -/
theorem claim_C1_range_invariant (f : MessageFeatures) (now : Int) :
    0 ≤ (calculatePriority f now).score ∧
      (calculatePriority f now).score ≤ 100 ∧
      0 ≤ (calculatePriority f now).confidence ∧
      (calculatePriority f now).confidence ≤ 1 := by
  obtain ⟨s, c, r, w, h⟩ := calculatePriority_shape f now
  rw [h]
  exact ⟨finalize_score_nonneg _ _ _ _ _, finalize_score_le _ _ _ _ _,
    (finalize_confidence_mem _ _ _ _ _).1, (finalize_confidence_mem _ _ _ _ _).2⟩

/-- C2 counterexample: with relationship score 0.82 and the VIP flag the
unrounded score is 89.6, so the returned (rounded) score is 90 while the
category is `important`, refuting "category is urgent iff score ≥ 90". -/
theorem claim_C2_counterexample :
    ¬((calculatePriority relVipFeatures 0).category = Category.urgent ↔
        90 ≤ (calculatePriority relVipFeatures 0).score) := by
  norm_num [calculatePriority, finalize, clamp100, clamp01, jsRound, tru, otru,
    deadlineUrgentB, securityB, calActive, calWindow, relVipFeatures,
    baselineFeatures, min_def, max_def]
  decide

/-- C2 amended: the category agrees with the fixed thresholds 90/70/50/30
applied to the clamped score *before* rounding; consequently the returned
rounded score lies between the category's own threshold and the next
threshold up, and can land exactly on the upper threshold (the category
boundaries overlap by at most the half-point of rounding). -/
theorem claim_C2_category_thresholds (f : MessageFeatures) (now : Int) :
    catLoBound (calculatePriority f now).category ≤ (calculatePriority f now).score ∧
      (calculatePriority f now).score ≤ catHiBound (calculatePriority f now).category := by
  obtain ⟨s, c, r, w, h⟩ := calculatePriority_shape f now
  rw [h]
  exact finalize_cat_bounds _ _ _ _ _

/-- C6: a feature record with only the newsletter flag set (all other
fields at their no-signal defaults) receives the −30 newsletter penalty
and lands below 30, category `spam`, at any evaluation time. -/
theorem claim_C6_newsletter_spam (now : Int) :
    (calculatePriority newsletterFeatures now).score < 30 ∧
      (calculatePriority newsletterFeatures now).category = Category.spam ∧
      ("is_newsletter", (-30 : ℚ)) ∈
        (calculatePriority newsletterFeatures now).feature_weights := by
  norm_num [calculatePriority, finalize, clamp100, clamp01, jsRound, tru, otru,
    deadlineUrgentB, securityB, calActive, calWindow, newsletterFeatures,
    baselineFeatures, min_def, max_def]

/-- C7: a feature record with only the one-time-code flag set receives the
−35 penalty and returns a score below 30 with confidence at most 0.6, at
any evaluation time. -/
theorem claim_C7_otp_penalty (now : Int) :
    (calculatePriority otpFeatures now).score < 30 ∧
      (calculatePriority otpFeatures now).confidence ≤ 3/5 ∧
      ("otp_detected", (-35 : ℚ)) ∈
        (calculatePriority otpFeatures now).feature_weights := by
  norm_num [calculatePriority, finalize, clamp100, clamp01, jsRound, tru, otru,
    deadlineUrgentB, securityB, calActive, calWindow, otpFeatures,
    baselineFeatures, min_def, max_def]

/-- C8: a sender with zero emails received and zero emails sent in the
lookback window gets relationship score exactly 0.5, bypassing the
weighted sum, for both values of the manual-VIP flag. -/
theorem claim_C8_new_sender_neutral (sender : String) (stats : EmailHistoryStats)
    (vip : Bool) (now : Int)
    (h1 : stats.emails_received = 0) (h2 : stats.emails_sent_to = 0) :
    (calculateRelationshipScore sender stats vip now).score = 1/2 := by
  simp only [calculateRelationshipScore]
  simp [h1, h2]

/-- Witness for C8: the empty interaction history satisfies the
hypotheses and indeed scores 0.5. -/
theorem claim_C8_witness :
    emptyStats.emails_received = 0 ∧ emptyStats.emails_sent_to = 0 ∧
      (calculateRelationshipScore "new@example.com" emptyStats false 0).score = 1/2 :=
  ⟨rfl, rfl, claim_C8_new_sender_neutral "new@example.com" emptyStats false 0 rfl rfl⟩

/-- C3 counterexample: the source consults `Date.now()` in the calendar
override, so the same feature record (calendar event at epoch 3600) scores
70 when evaluated at epoch 0 but 50 when evaluated at epoch 7200 — the
scorer is not a function of the feature record alone. -/
theorem claim_C3_counterexample :
    (calculatePriority calendarFeatures 0).score ≠
      (calculatePriority calendarFeatures 7200).score := by
  norm_num [calculatePriority, finalize, clamp100, clamp01, jsRound, tru, otru,
    deadlineUrgentB, securityB, calActive, calWindow, calendarFeatures,
    baselineFeatures, min_def, max_def]

/-- C3 amended: the scorer is a deterministic function of the feature
record *and* the evaluation time; whenever the record does not carry a
truthy calendar flag together with a truthy calendar start epoch, the
evaluation time is irrelevant, so repeated invocations agree. -/
theorem claim_C3_pure_without_calendar (f : MessageFeatures) (t1 t2 : Int)
    (h : (tru f.has_calendar && otru f.calendar_start_epoch) = false) :
    calculatePriority f t1 = calculatePriority f t2 :=
  calculatePriority_time_indep f h t1 t2

/-- Witness for C3: the baseline record has no calendar signal, and its
scores at epochs 0 and 7200 coincide. -/
theorem claim_C3_witness :
    (tru baselineFeatures.has_calendar && otru baselineFeatures.calendar_start_epoch)
        = false ∧
      calculatePriority baselineFeatures 0 = calculatePriority baselineFeatures 7200 :=
  ⟨by simp [tru, otru, baselineFeatures],
    claim_C3_pure_without_calendar baselineFeatures 0 7200
      (by simp [tru, otru, baselineFeatures])⟩

/-- C4 counterexample: `deadline_epoch = 0` is non-null but JavaScript-falsy,
so `if (features.deadline_epoch)` skips the +15/+25 bonuses entirely: with
`deadline_epoch = 0` and 30 minutes to deadline the weight map stays empty
and the score stays at the baseline 50. -/
theorem claim_C4_counterexample :
    ("deadline_epoch", (15 : ℚ)) ∉
        (calculatePriority zeroDeadlineFeatures 0).feature_weights ∧
      (calculatePriority zeroDeadlineFeatures 0).score = 50 := by
  norm_num [calculatePriority, finalize, clamp100, clamp01, jsRound, tru, otru,
    deadlineUrgentB, securityB, calActive, calWindow, zeroDeadlineFeatures,
    baselineFeatures, min_def, max_def]

/-- C4 amended: for every record whose `deadline_epoch` is non-null *and
nonzero*, the scorer records the +15 deadline bonus, and additionally the
+25 urgent bonus whenever `time_to_deadline_min` is non-null and below
1440; in particular a record with a deadline 30 minutes away and all else
neutral reaches score ≥ 90, category `urgent`, with the +0.1 confidence
boost (0.8 → 0.9, capped at 1.0). -/
theorem claim_C4_deadline_bonus (f : MessageFeatures) (now : Int) (d : ℚ)
    (hd : f.deadline_epoch = some d) (hd0 : d ≠ 0) :
    ("deadline_epoch", (15 : ℚ)) ∈ (calculatePriority f now).feature_weights ∧
      (∀ t : ℚ, f.time_to_deadline_min = some t → t < 1440 →
        ("time_to_deadline_urgent", (25 : ℚ)) ∈
          (calculatePriority f now).feature_weights) ∧
      90 ≤ (calculatePriority urgentDeadlineFeatures now).score ∧
      (calculatePriority urgentDeadlineFeatures now).category = Category.urgent ∧
      (calculatePriority urgentDeadlineFeatures now).confidence = 9/10 := by
  have hot : otru f.deadline_epoch = true := by simp [otru, hd, hd0]
  refine ⟨?_, ?_, ?_, ?_, ?_⟩
  · simp [calculatePriority, finalize, hot]
  · intro t ht h14
    have hdu : deadlineUrgentB f = true := deadlineUrgentB_true hd hd0 ht h14
    simp [calculatePriority, finalize, hdu]
  · norm_num [calculatePriority, finalize, clamp100, clamp01, jsRound, tru, otru,
      deadlineUrgentB, securityB, calActive, calWindow, urgentDeadlineFeatures,
      baselineFeatures, min_def, max_def]
  · norm_num [calculatePriority, finalize, clamp100, clamp01, jsRound, tru, otru,
      deadlineUrgentB, securityB, calActive, calWindow, urgentDeadlineFeatures,
      baselineFeatures, min_def, max_def]
  · norm_num [calculatePriority, finalize, clamp100, clamp01, jsRound, tru, otru,
      deadlineUrgentB, securityB, calActive, calWindow, urgentDeadlineFeatures,
      baselineFeatures, min_def, max_def]

/-- Witness for C4: the deadline-in-30-minutes record satisfies every
hypothesis and exhibits both weight entries and the urgent outcome. -/
theorem claim_C4_witness :
    urgentDeadlineFeatures.deadline_epoch = some 1800 ∧ (1800 : ℚ) ≠ 0 ∧
      urgentDeadlineFeatures.time_to_deadline_min = some 30 ∧ (30 : ℚ) < 1440 ∧
      ("deadline_epoch", (15 : ℚ)) ∈
        (calculatePriority urgentDeadlineFeatures 0).feature_weights ∧
      ("time_to_deadline_urgent", (25 : ℚ)) ∈
        (calculatePriority urgentDeadlineFeatures 0).feature_weights ∧
      90 ≤ (calculatePriority urgentDeadlineFeatures 0).score :=
  ⟨rfl, by norm_num, rfl, by norm_num,
    (claim_C4_deadline_bonus urgentDeadlineFeatures 0 1800 rfl (by norm_num)).1,
    (claim_C4_deadline_bonus urgentDeadlineFeatures 0 1800 rfl
        (by norm_num)).2.1 30 rfl (by norm_num),
    (claim_C4_deadline_bonus urgentDeadlineFeatures 0 1800 rfl (by norm_num)).2.2.1⟩

/-- C5 counterexample: with the non-null but zero (falsy) `deadline_epoch`,
30 minutes to deadline and the explicit-ask flag, the security override
does not fire: the score is 70 (< 85) and the confidence 0.8 (≠ 0.7). -/
theorem claim_C5_counterexample :
    ¬(85 ≤ (calculatePriority zeroDeadlineAskFeatures 0).score ∧
        (calculatePriority zeroDeadlineAskFeatures 0).confidence = 7/10) := by
  norm_num [calculatePriority, finalize, clamp100, clamp01, jsRound, tru, otru,
    deadlineUrgentB, securityB, calActive, calWindow, zeroDeadlineAskFeatures,
    baselineFeatures, min_def, max_def]

/-- C5 amended: for every record with a non-null *nonzero* `deadline_epoch`,
a non-null `time_to_deadline_min` strictly below 360 and a truthy
`explicit_ask`, the scorer returns score ≥ 85 and confidence exactly 0.7,
regardless of the other feature values. -/
theorem claim_C5_security_floor (f : MessageFeatures) (now : Int) (d t : ℚ)
    (hd : f.deadline_epoch = some d) (hd0 : d ≠ 0)
    (ht : f.time_to_deadline_min = some t) (h36 : t < 360)
    (hask : tru f.explicit_ask = true) :
    85 ≤ (calculatePriority f now).score ∧
      (calculatePriority f now).confidence = 7/10 := by
  have hsec : securityB f = true := securityB_true hd hd0 ht h36 hask
  simp only [calculatePriority, finalize, hsec, if_true]
  constructor
  · exact le_jsRound_clamp100_max85 _
  · norm_num [clamp01]

/-- Witness for C5: the deadline-plus-ask record satisfies the hypotheses
and indeed floors at 85 with confidence 0.7. -/
theorem claim_C5_witness :
    securityAskFeatures.deadline_epoch = some 1800 ∧ (1800 : ℚ) ≠ 0 ∧
      securityAskFeatures.time_to_deadline_min = some 30 ∧ (30 : ℚ) < 360 ∧
      tru securityAskFeatures.explicit_ask = true ∧
      85 ≤ (calculatePriority securityAskFeatures 0).score ∧
      (calculatePriority securityAskFeatures 0).confidence = 7/10 :=
  ⟨rfl, by norm_num, rfl, by norm_num,
    by simp [tru, securityAskFeatures, baselineFeatures],
    (claim_C5_security_floor securityAskFeatures 0 1800 30 rfl (by norm_num) rfl
        (by norm_num) (by simp [tru, securityAskFeatures, baselineFeatures])).1,
    (claim_C5_security_floor securityAskFeatures 0 1800 30 rfl (by norm_num) rfl
        (by norm_num) (by simp [tru, securityAskFeatures, baselineFeatures])).2⟩

/-- C9 counterexample: the claimed formula disagrees with the code in two
ways.  Subject `"HELLO"` (a single all-caps word): the code awards the +2
bonus for one word of three or more consecutive capital letters
(`\b[A-Z]{3,}\b`), while the claimed "three or more consecutive
capitalized words" awards nothing (2 vs 0).  Subject `"urgent asap"`: the
code's critical tier matches once (both words belong to one alternation
pattern, +5), while per-term counting gives +5 twice (5 vs 10). -/
theorem claim_C9_counterexample :
    specUrgency "HELLO" "" ≠ detectUrgency "HELLO" "" ∧
      specUrgency "urgent asap" "" ≠ detectUrgency "urgent asap" "" := by
  decide

/-- C9 amended: the urgency level equals the sum of +5 per matched
*critical pattern*, +3 per matched *high pattern*, +1 per matched *medium
pattern* (each pattern is an alternation that counts once however many of
its terms occur), plus +2 when the subject contains a word of three or
more consecutive capital letters, clamped to 10. -/
theorem claim_C9_urgency_sum (subject body : String) :
    detectUrgency subject body =
      min 10
        (5 * criticalSignals.countP (fun p => p (fullTextOf subject body)) +
          3 * highSignals.countP (fun p => p (fullTextOf subject body)) +
          mediumSignals.countP (fun p => p (fullTextOf subject body)) +
          (if hasAllCapsWord subject then 2 else 0)) := by
  simp only [detectUrgency]
  rw [foldl_signal_add, foldl_signal_add, foldl_signal_add]
  cases h : hasAllCapsWord subject <;> simp only [h, Bool.false_eq_true, if_false, if_true] <;>
    (congr 1; ring)

/-- C10: whenever none of the four confidence-modifying rules fires —
no one-time code, no urgent deadline (non-null minutes below 1440
alongside a deadline), no calendar event starting within 24 hours of the
evaluation time, and no security-alert combination (deadline, minutes
below 360 and explicit ask) — the returned confidence is exactly the
unstated base 0.8. -/
theorem claim_C10_base_confidence (f : MessageFeatures) (now : Int)
    (h1 : tru f.otp_detected = false)
    (h2 : ¬(f.deadline_epoch ≠ none ∧
            ∃ t, f.time_to_deadline_min = some t ∧ t < 1440))
    (h3 : ¬ ∃ c, f.calendar_start_epoch = some c ∧
            0 < c - (now : ℚ) ∧ c - (now : ℚ) < 86400)
    (h4 : ¬(f.deadline_epoch ≠ none ∧
            (∃ t, f.time_to_deadline_min = some t ∧ t < 360) ∧
            tru f.explicit_ask = true)) :
    (calculatePriority f now).confidence = 4/5 := by
  have hdu := deadlineUrgentB_false_of h2
  have hca := calActive_false_of_window h3
  have hsec := securityB_false_of h4
  simp only [calculatePriority, finalize, h1, hdu, hca, hsec,
    Bool.false_eq_true, if_false]
  norm_num [clamp01]

/-- Witness for C10: the baseline record triggers no confidence rule and
indeed comes back with confidence 0.8. -/
theorem claim_C10_witness :
    tru baselineFeatures.otp_detected = false ∧
      (calculatePriority baselineFeatures 0).confidence = 4/5 := by
  refine ⟨by simp [tru, baselineFeatures], ?_⟩
  refine claim_C10_base_confidence baselineFeatures 0
    (by simp [tru, baselineFeatures]) (fun h => h.1 rfl) ?_ (fun h => h.1 rfl)
  rintro ⟨c, hc, -⟩
  exact Option.noConfusion hc
